import Mathlib

/-!
Verification of the travel-services CRUD application (src/app.py) against its
specification.  The application manages a single PostgreSQL table
`travel_services` through a form interface.  We give a shallow embedding:

* Python strings are modelled as their character sequences (`List Char`);
  `str.strip()` becomes dropping whitespace from both ends.
* Monetary values are modelled as exact rationals; Python's `round(x, 2)`
  is modelled as rounding `100*x` to the nearest integer with ties to even
  (CPython rounds half to even on the decimal digit of the double value).
* Dates and timestamps are modelled as integers (only their ordering matters).
* The database is a list of rows plus the next value of the `SERIAL` id;
  each SQL statement of app.py becomes a function on that state.
-/

/-- Python strings, modelled as their character sequences. -/
abbrev PyStr := List Char

/-- Python `s.strip()` with no arguments: remove leading and trailing
whitespace (app.py uses it on form text inputs). -/
def pyStrip (s : PyStr) : PyStr :=
  List.rdropWhile Char.isWhitespace (List.dropWhile Char.isWhitespace s)

/-- Python `s or None` on a string `s`: the empty string is falsy and becomes
`None`; used in `build_payload` for the selectbox fields (app.py lines
229, 236, 239, 240). -/
def pyStrOrNone (s : PyStr) : Option PyStr :=
  if s = [] then none else some s

/-- Python `s.strip() or None`: trim, then coerce an empty result to `None`;
used in `build_payload` for the optional free-text fields (app.py lines
232-235, 242). -/
def pyStripOrNone (s : PyStr) : Option PyStr :=
  if pyStrip s = [] then none else some (pyStrip s)

/-- Python `x or 0` on a possibly missing number: `None` and `0.0` are falsy
and become `0`; any other value, including a negative one, is kept
(app.py lines 237-238). -/
def pyOrZero (x : Option ℚ) : ℚ :=
  match x with
  | none => 0
  | some v => if v = 0 then 0 else v

/-- Rounding to the nearest integer with ties going to the even integer,
the tie-breaking rule of Python's built-in `round`. -/
def roundHalfEven (q : ℚ) : ℤ :=
  if q - ⌊q⌋ < 1/2 then ⌊q⌋
  else if q - ⌊q⌋ > 1/2 then ⌊q⌋ + 1
  else if Even ⌊q⌋ then ⌊q⌋ else ⌊q⌋ + 1

/-- Python `round(x, 2)`, modelled exactly over the rationals: round `100*x`
half-to-even and scale back.  (On the concrete inputs examined below the
binary double of the literal lies strictly off the tie or at an exact
value, so the float semantics of CPython agree with this model.) -/
def pyRound2 (q : ℚ) : ℚ :=
  (roundHalfEven (q * 100) : ℚ) / 100

/-- The normalized payload produced by `build_payload` (app.py lines 204-243):
one value per mutable column of `travel_services`.  There is no
`total_cost` field: the application never supplies one, the column is
generated by the database (app.py line 103). -/
structure Payload where
  service_type : PyStr
  control : PyStr
  issue_date : ℤ
  issuer : PyStr
  airline : Option PyStr
  departure_date : Option ℤ
  month_number : ℤ
  origin : Option PyStr
  destination : Option PyStr
  user_name : Option PyStr
  reason : Option PyStr
  cost_center : Option PyStr
  service_cost : ℚ
  fee : ℚ
  status : Option PyStr
  supplier : Option PyStr
  nf_issue_date : Option ℤ
  nf_number : Option PyStr

/-- app.py `build_payload` (lines 204-243), argument for argument:
`control` and `issuer` are trimmed; the optional free-text fields are
trimmed with the empty result coerced to null; the selectbox fields are
null when empty but never trimmed; the monetary fields go through
`round(x or 0, 2)`; the dates pass through. -/
def build_payload (service_type : PyStr) (control : PyStr) (issue_date : ℤ)
    (issuer : PyStr) (airline : PyStr) (departure_date : Option ℤ)
    (month_number : ℤ) (origin : PyStr) (destination : PyStr)
    (user_name : PyStr) (reason : PyStr) (cost_center : PyStr)
    (service_cost : Option ℚ) (fee : Option ℚ) (status : PyStr)
    (supplier : PyStr) (nf_issue_date : Option ℤ) (nf_number : PyStr) :
    Payload :=
  { service_type := service_type
    control := pyStrip control
    issue_date := issue_date
    issuer := pyStrip issuer
    airline := pyStrOrNone airline
    departure_date := departure_date
    month_number := month_number
    origin := pyStripOrNone origin
    destination := pyStripOrNone destination
    user_name := pyStripOrNone user_name
    reason := pyStripOrNone reason
    cost_center := pyStrOrNone cost_center
    service_cost := pyRound2 (pyOrZero service_cost)
    fee := pyRound2 (pyOrZero fee)
    status := pyStrOrNone status
    supplier := pyStrOrNone supplier
    nf_issue_date := nf_issue_date
    nf_number := pyStripOrNone nf_number }

/-- The formula of the generated column `total_cost NUMERIC(12,2) GENERATED
ALWAYS AS (COALESCE(service_cost,0)+COALESCE(fee,0)) STORED`
(app.py line 103). -/
def genTotal (sc : Option ℚ) (f : Option ℚ) : ℚ :=
  sc.getD 0 + f.getD 0

/-- A stored row of `travel_services`, columns as in `ensure_table`
(app.py lines 85-113).  `service_cost` and `fee` are nullable columns;
`total_cost` is the stored generated column. -/
structure Row where
  id : ℕ
  service_type : PyStr
  control : PyStr
  issue_date : ℤ
  issuer : PyStr
  airline : Option PyStr
  departure_date : Option ℤ
  month_number : ℤ
  origin : Option PyStr
  destination : Option PyStr
  user_name : Option PyStr
  reason : Option PyStr
  cost_center : Option PyStr
  service_cost : Option ℚ
  fee : Option ℚ
  total_cost : ℚ
  status : Option PyStr
  supplier : Option PyStr
  nf_issue_date : Option ℤ
  nf_number : Option PyStr
  created_at : ℤ

/-- Database state: the rows of `travel_services` in insertion order and the
next value of the `SERIAL` primary key. -/
structure DB where
  rows : List Row
  nextId : ℕ

/-- The freshly created table: no rows, `SERIAL` starting at 1. -/
def init_db : DB := { rows := [], nextId := 1 }

/-- The row produced by the INSERT of `insert_record` (app.py lines 130-147):
the 18 payload columns are written, `id` comes from the sequence,
`created_at` defaults to `NOW()` (modelled as an external input), and the
database computes `total_cost` from the generated-column formula. -/
def rowOfPayload (id : ℕ) (now : ℤ) (p : Payload) : Row :=
  { id := id
    service_type := p.service_type
    control := p.control
    issue_date := p.issue_date
    issuer := p.issuer
    airline := p.airline
    departure_date := p.departure_date
    month_number := p.month_number
    origin := p.origin
    destination := p.destination
    user_name := p.user_name
    reason := p.reason
    cost_center := p.cost_center
    service_cost := some p.service_cost
    fee := some p.fee
    total_cost := genTotal (some p.service_cost) (some p.fee)
    status := p.status
    supplier := p.supplier
    nf_issue_date := p.nf_issue_date
    nf_number := p.nf_number
    created_at := now }

/-- app.py `insert_record` (lines 130-147): append a new row with the next
serial id. -/
def insert_record (db : DB) (now : ℤ) (p : Payload) : DB :=
  { rows := db.rows ++ [rowOfPayload db.nextId now p], nextId := db.nextId + 1 }

/-- Effect of the UPDATE statement of `update_record` (app.py lines 150-177)
on one row: all 18 payload columns are rewritten, `id` and `created_at`
are untouched, and the database recomputes the generated `total_cost`. -/
def applyPayload (r : Row) (p : Payload) : Row :=
  { id := r.id
    service_type := p.service_type
    control := p.control
    issue_date := p.issue_date
    issuer := p.issuer
    airline := p.airline
    departure_date := p.departure_date
    month_number := p.month_number
    origin := p.origin
    destination := p.destination
    user_name := p.user_name
    reason := p.reason
    cost_center := p.cost_center
    service_cost := some p.service_cost
    fee := some p.fee
    total_cost := genTotal (some p.service_cost) (some p.fee)
    status := p.status
    supplier := p.supplier
    nf_issue_date := p.nf_issue_date
    nf_number := p.nf_number
    created_at := r.created_at }

/-- app.py `update_record` (lines 150-177): `UPDATE ... WHERE id=:id`
rewrites every matching row and leaves the others unchanged. -/
def update_record (db : DB) (rid : ℕ) (p : Payload) : DB :=
  { db with rows := db.rows.map fun r => if r.id = rid then applyPayload r p else r }

/-- app.py `delete_records` (lines 180-183): `DELETE ... WHERE id = ANY(:ids)`
keeps exactly the rows whose id is not in the requested list; ids that
match nothing simply delete nothing. -/
def delete_records (db : DB) (ids : List ℕ) : DB :=
  { db with rows := db.rows.filter fun r => !(ids.contains r.id) }

/-- A mutation the application can issue against the store; an insert carries
the `NOW()` timestamp the database would assign. -/
inductive Op where
  | insert (p : Payload) (now : ℤ)
  | update (rid : ℕ) (p : Payload)
  | delete (ids : List ℕ)

/-- Apply one mutation to the database state. -/
def applyOp (db : DB) : Op → DB
  | .insert p now => insert_record db now p
  | .update rid p => update_record db rid p
  | .delete ids => delete_records db ids

/-- Run a sequence of mutations from a starting state. -/
def run_ops (db : DB) : List Op → DB
  | [] => db
  | op :: rest => run_ops (applyOp db op) rest

/-- The reading order of `fetch_dataframe`: `ORDER BY issue_date DESC,
id DESC` (app.py line 124).  `fetchLE a b` holds when `a` may appear at or
before `b`: a later issue date first, ties broken by the larger id. -/
def fetchLE (a b : Row) : Prop :=
  b.issue_date < a.issue_date ∨ (b.issue_date = a.issue_date ∧ b.id ≤ a.id)

instance : DecidableRel fetchLE := fun a b => by
  unfold fetchLE; infer_instance

instance : IsTotal Row fetchLE :=
  ⟨fun a b => by unfold fetchLE; omega⟩

instance : IsTrans Row fetchLE :=
  ⟨fun a b c => by unfold fetchLE; omega⟩

/-- app.py `fetch_dataframe` (lines 115-127): `SELECT` of the whole table
ordered by issue date descending, id descending; no LIMIT or pagination. -/
def fetch_dataframe (db : DB) : List Row :=
  List.insertionSort fetchLE db.rows

/-- The status predicate of `show_table_tab` (app.py line 340):
`filtered["status"].isin(selected_status)`.  A null status matches no
selection (pandas `isin` is false on missing values). -/
def statusPass (sel : List PyStr) (r : Row) : Bool :=
  match r.status with
  | some s => sel.contains s
  | none => false

/-- The status filter of `show_table_tab` (app.py lines 339-340): applied only
when the selection is non-empty (`if selected_status:`). -/
def filter_status (sel : List PyStr) (rows : List Row) : List Row :=
  if sel.isEmpty then rows else rows.filter (statusPass sel)

/-- The issue-date range filter of `show_table_tab` (app.py lines 346-351):
applied only when a range was chosen, and keeps the rows with
`start <= issue_date` and `issue_date <= end`, both bounds inclusive. -/
def filter_issue_range : Option (ℤ × ℤ) → List Row → List Row
  | none, rows => rows
  | some (lo, hi), rows =>
      rows.filter fun r => decide (lo ≤ r.issue_date) && decide (r.issue_date ≤ hi)

/-- The raw values the create/update form hands to `build_payload`
(app.py lines 285-304): text inputs are strings, selectboxes are strings
(possibly the empty choice), dates may be absent, the two `st.number_input`
values are numbers that could in principle be missing. -/
structure FormInputs where
  service_type : PyStr
  control : PyStr
  issue_date : ℤ
  issuer : PyStr
  airline : PyStr
  departure_date : Option ℤ
  month_number : ℤ
  origin : PyStr
  destination : PyStr
  user_name : PyStr
  reason : PyStr
  cost_center : PyStr
  service_cost : Option ℚ
  fee : Option ℚ
  status : PyStr
  supplier : PyStr
  nf_issue_date : Option ℤ
  nf_number : PyStr

/-- `build_payload` applied to the bundled form inputs, in the argument order
of the call sites (app.py lines 285-304 and 455-474). -/
def build_payload_of (i : FormInputs) : Payload :=
  build_payload i.service_type i.control i.issue_date i.issuer i.airline
    i.departure_date i.month_number i.origin i.destination i.user_name
    i.reason i.cost_center i.service_cost i.fee i.status i.supplier
    i.nf_issue_date i.nf_number

/-- The validation message of the create form (app.py line 283). -/
def controle_msg : PyStr := "O campo Controle é obrigatório.".toList

/-- The submit branch of `show_create_tab` (app.py lines 281-306): if the
control code is blank after trimming, show the validation error and stop
before building a payload or touching the database; otherwise build the
payload and insert it.  Returns the new database state and the error
message, if any. -/
def show_create_submit (db : DB) (now : ℤ) (i : FormInputs) : DB × Option PyStr :=
  if pyStrip i.control = [] then (db, some controle_msg)
  else (insert_record db now (build_payload_of i), none)

/-- An optional text value is normalized when it is either null or a
non-empty string fixed by trimming (no leading or trailing whitespace). -/
def normOpt : Option PyStr → Prop
  | none => True
  | some s => s ≠ [] ∧ pyStrip s = s

instance : (o : Option PyStr) → Decidable (normOpt o)
  | none => isTrue trivial
  | some s => inferInstanceAs (Decidable (s ≠ [] ∧ pyStrip s = s))

/-- An optional text value that is either null or a non-empty string
(possibly with surrounding whitespace). -/
def nonemptyOpt : Option PyStr → Prop
  | none => True
  | some s => s ≠ []

instance : (o : Option PyStr) → Decidable (nonemptyOpt o)
  | none => isTrue trivial
  | some s => inferInstanceAs (Decidable (s ≠ []))

/-- The invariant of the generated column: a row's stored total cost is the
sum of its two cost columns, a null cost counting as zero. -/
def totalOK (r : Row) : Prop :=
  r.total_cost = r.service_cost.getD 0 + r.fee.getD 0

/-- Dropping a whitespace prefix, then trailing whitespace, leaves a list
whose first element is not whitespace; so a second left pass is the
identity. -/
theorem dropWhile_strip_eq_self (p : Char → Bool) (s : List Char) :
    List.dropWhile p (List.rdropWhile p (List.dropWhile p s)) =
      List.rdropWhile p (List.dropWhile p s) := by
  rw [List.dropWhile_eq_self_iff]
  intro hl
  have hpre : List.rdropWhile p (List.dropWhile p s) <+: List.dropWhile p s :=
    List.rdropWhile_prefix p (List.dropWhile p s)
  have hlen : 0 < (List.dropWhile p s).length :=
    lt_of_lt_of_le hl hpre.length_le
  have hget :
      (List.rdropWhile p (List.dropWhile p s)).get ⟨0, hl⟩ =
        (List.dropWhile p s).get ⟨0, hlen⟩ := by
    simpa [List.get_eq_getElem] using hpre.getElem hl
  rw [hget]
  exact List.dropWhile_get_zero_not p s hlen

/-- Python `strip` is idempotent. -/
theorem pyStrip_idem (s : PyStr) : pyStrip (pyStrip s) = pyStrip s := by
  unfold pyStrip
  rw [dropWhile_strip_eq_self]
  exact List.rdropWhile_idempotent _ _

/-- Values produced by the `s.strip() or None` pattern are always normalized:
null, or non-empty and trim-fixed. -/
theorem normOpt_pyStripOrNone (s : PyStr) : normOpt (pyStripOrNone s) := by
  unfold pyStripOrNone
  by_cases h : pyStrip s = []
  · simp [h, normOpt]
  · simp only [h, if_false]
    exact ⟨h, pyStrip_idem s⟩

/-- Values produced by the `s or None` pattern are null or non-empty. -/
theorem nonemptyOpt_pyStrOrNone (s : PyStr) : nonemptyOpt (pyStrOrNone s) := by
  unfold pyStrOrNone
  by_cases h : s = []
  · simp [h, nonemptyOpt]
  · simp only [h, if_false]
    exact h

/-- A freshly inserted row satisfies the generated-column invariant. -/
theorem totalOK_rowOfPayload (id : ℕ) (now : ℤ) (p : Payload) :
    totalOK (rowOfPayload id now p) := by
  simp [totalOK, rowOfPayload, genTotal]

/-- An updated row satisfies the generated-column invariant. -/
theorem totalOK_applyPayload (r : Row) (p : Payload) :
    totalOK (applyPayload r p) := by
  simp [totalOK, applyPayload, genTotal]

/-- Every mutation preserves the generated-column invariant. -/
theorem totalOK_applyOp (db : DB) (op : Op)
    (h : ∀ r ∈ db.rows, totalOK r) :
    ∀ r ∈ (applyOp db op).rows, totalOK r := by
  cases op with
  | insert p now =>
    intro r hr
    simp only [applyOp, insert_record, List.mem_append, List.mem_singleton] at hr
    rcases hr with hr | hr
    · exact h r hr
    · subst hr; exact totalOK_rowOfPayload _ _ _
  | update rid p =>
    intro r hr
    simp only [applyOp, update_record, List.mem_map] at hr
    obtain ⟨a, ha, rfl⟩ := hr
    by_cases hid : a.id = rid
    · simpa [hid] using totalOK_applyPayload a p
    · simpa [hid] using h a ha
  | delete ids =>
    intro r hr
    simp only [applyOp, delete_records, List.mem_filter] at hr
    exact h r hr.1

/-- Any run of mutations preserves the generated-column invariant. -/
theorem totalOK_run_ops (ops : List Op) (db : DB)
    (h : ∀ r ∈ db.rows, totalOK r) :
    ∀ r ∈ (run_ops db ops).rows, totalOK r := by
  induction ops generalizing db with
  | nil => exact h
  | cons op rest ih => exact ih (applyOp db op) (totalOK_applyOp db op h)

/-- C1: in every database state reachable by creates, updates and deletes
from the fresh table, every readable row's total cost equals the sum of
its service cost and fee, a null cost counting as zero.  The application
never writes the column: `Payload` has no total-cost field, and both the
INSERT and the UPDATE statement list only the other 18 columns, so the
value always comes from the generated-column formula of the DDL. -/
theorem total_cost_generated_invariant (ops : List Op) (r : Row)
    (hr : r ∈ (run_ops init_db ops).rows) :
    r.total_cost = r.service_cost.getD 0 + r.fee.getD 0 :=
  totalOK_run_ops ops init_db (by simp [init_db]) r hr

/-- Example payload used to witness the invariant theorem. -/
def payload_ex : Payload :=
  build_payload "TRANSPORTE".toList "ABC123".toList 20240301 "ANA".toList
    [] none 3 [] [] [] [] [] (some 100) (some 50) [] [] none []

theorem total_cost_generated_invariant_witness :
    rowOfPayload 1 0 payload_ex ∈ (run_ops init_db [Op.insert payload_ex 0]).rows ∧
      (rowOfPayload 1 0 payload_ex).total_cost =
        (rowOfPayload 1 0 payload_ex).service_cost.getD 0 +
          (rowOfPayload 1 0 payload_ex).fee.getD 0 := by
  have hmem : rowOfPayload 1 0 payload_ex ∈
      (run_ops init_db [Op.insert payload_ex 0]).rows := by
    simp [run_ops, applyOp, insert_record, init_db]
  exact ⟨hmem, total_cost_generated_invariant [Op.insert payload_ex 0] _ hmem⟩

/-- C2: the List operation returns a permutation of the whole table — every
record, no pagination or truncation — arranged so that consecutive records
satisfy `fetchLE`: issue date descending, ties broken by identifier
descending. -/
theorem list_returns_all_sorted_desc (db : DB) :
    List.Perm (fetch_dataframe db) db.rows ∧
      List.Sorted fetchLE (fetch_dataframe db) ∧
      (fetch_dataframe db).length = db.rows.length :=
  ⟨List.perm_insertionSort fetchLE db.rows,
   List.sorted_insertionSort fetchLE db.rows,
   (List.perm_insertionSort fetchLE db.rows).length_eq⟩

/-- C3: a create submission whose control code is blank after trimming is
rejected with the validation message, and the database state — hence the
record list — is unchanged; in `show_create_tab` the check precedes
`build_payload` and `insert_record`, so no database call is made. -/
theorem create_blank_control_rejected (db : DB) (now : ℤ) (i : FormInputs)
    (h : pyStrip i.control = []) :
    (show_create_submit db now i).1 = db ∧
      (show_create_submit db now i).2 = some controle_msg := by
  simp [show_create_submit, h]

/-- Blank form input used to witness the rejection theorem. -/
def inputs_blank : FormInputs :=
  { service_type := "TRANSPORTE".toList
    control := [' ', ' ']
    issue_date := 20240301
    issuer := "ANA".toList
    airline := []
    departure_date := none
    month_number := 3
    origin := []
    destination := []
    user_name := []
    reason := []
    cost_center := []
    service_cost := some 100
    fee := some 50
    status := []
    supplier := []
    nf_issue_date := none
    nf_number := [] }

theorem create_blank_control_rejected_witness :
    pyStrip inputs_blank.control = [] ∧
      (show_create_submit init_db 0 inputs_blank).1 = init_db ∧
      (show_create_submit init_db 0 inputs_blank).2 = some controle_msg := by
  have h : pyStrip inputs_blank.control = [] := by decide
  exact ⟨h, create_blank_control_rejected init_db 0 inputs_blank h⟩

/-- C8: Delete removes exactly the rows whose identifier is in the requested
set and keeps every other row; a requested identifier with no matching
row has no effect and raises no error (`delete_records` is total). -/
theorem delete_exact_ids (db : DB) (ids : List ℕ) (r : Row) :
    r ∈ (delete_records db ids).rows ↔ r ∈ db.rows ∧ r.id ∉ ids := by
  simp [delete_records, List.mem_filter]

/-- C9: Update is idempotent: issuing the same UPDATE twice leaves the same
database state as issuing it once, for every identifier and payload. -/
theorem update_record_idempotent (db : DB) (rid : ℕ) (p : Payload) :
    update_record (update_record db rid p) rid p = update_record db rid p := by
  unfold update_record
  cases db with
  | mk rows nextId =>
    simp only [DB.mk.injEq, and_true]
    induction rows with
    | nil => rfl
    | cons a t ih =>
      simp only [List.map_cons, List.cons.injEq]
      constructor
      · by_cases hid : a.id = rid
        · simp [hid, applyPayload]
        · simp [hid]
      · exact ih

/-- C6: the status filter keeps exactly the records whose status is a member
of the selected set; an empty selection applies no filter, so every record
passes (a record with a null status matches no non-empty selection). -/
theorem status_filter_membership (sel : List PyStr) (rows : List Row) (r : Row) :
    r ∈ filter_status sel rows ↔
      r ∈ rows ∧ (sel = [] ∨ ∃ s, r.status = some s ∧ s ∈ sel) := by
  unfold filter_status
  rcases sel with _ | ⟨s0, sel'⟩
  · simp
  · simp only [List.isEmpty_cons, if_false, Bool.false_eq_true, List.mem_filter]
    constructor
    · rintro ⟨hmem, hpass⟩
      refine ⟨hmem, Or.inr ?_⟩
      unfold statusPass at hpass
      cases hst : r.status with
      | none => rw [hst] at hpass; exact absurd hpass (by simp)
      | some s =>
        rw [hst] at hpass
        exact ⟨s, rfl, by simpa using hpass⟩
    · rintro ⟨hmem, h | ⟨s, hst, hs⟩⟩
      · exact absurd h (by simp)
      · exact ⟨hmem, by unfold statusPass; rw [hst]; simpa using hs⟩

/-- C7: the issue-date range filter keeps exactly the records whose issue
date lies between the two bounds, both ends inclusive. -/
theorem issue_date_filter_inclusive (lo hi : ℤ) (rows : List Row) (r : Row) :
    r ∈ filter_issue_range (some (lo, hi)) rows ↔
      r ∈ rows ∧ lo ≤ r.issue_date ∧ r.issue_date ≤ hi := by
  simp [filter_issue_range, List.mem_filter]

/-- Form input exhibiting the parts of the claimed normalization that the
code does not perform: a blank issuer, a whitespace airline choice, and a
negative service cost. -/
def inputs_c4 : FormInputs :=
  { service_type := "TRANSPORTE".toList
    control := "X".toList
    issue_date := 20240301
    issuer := []
    airline := [' ']
    departure_date := none
    month_number := 3
    origin := []
    destination := []
    user_name := []
    reason := []
    cost_center := []
    service_cost := some (-5)
    fee := some 50
    status := []
    supplier := []
    nf_issue_date := none
    nf_number := [] }

/-- C4 counterexample: `round(service_cost or 0, 2)` keeps a negative input
(only `None` and `0.0` are falsy), the trimmed-empty issuer stays an empty
string rather than becoming null, and the airline selection is not
trimmed. -/
theorem build_payload_negative_not_zeroed :
    (build_payload_of inputs_c4).service_cost = -5 ∧
      (build_payload_of inputs_c4).service_cost ≠ 0 ∧
      (build_payload_of inputs_c4).issuer = [] ∧
      (build_payload_of inputs_c4).airline = some [' '] := by
  refine ⟨?_, ?_, by decide, by decide⟩
  · show pyRound2 (pyOrZero (some (-5 : ℚ))) = -5
    norm_num [pyOrZero, pyRound2, roundHalfEven]
  · show pyRound2 (pyOrZero (some (-5 : ℚ))) ≠ 0
    norm_num [pyOrZero, pyRound2, roundHalfEven]

/-- C4 amended: `build_payload` trims `control` and `issuer` (keeping them
even when empty), produces the optional free-text fields null or trimmed
non-empty, produces the selection fields null or unchanged non-empty,
rounds both monetary fields to an integer number of hundredths, and maps
a missing monetary input to zero; a negative monetary input is not
coerced to zero (the form widget's minimum of 0 excludes it upstream). -/
theorem build_payload_normalization_amended (i : FormInputs) :
    (build_payload_of i).control = pyStrip i.control ∧
      (build_payload_of i).issuer = pyStrip i.issuer ∧
      normOpt (build_payload_of i).origin ∧
      normOpt (build_payload_of i).destination ∧
      normOpt (build_payload_of i).user_name ∧
      normOpt (build_payload_of i).reason ∧
      normOpt (build_payload_of i).nf_number ∧
      nonemptyOpt (build_payload_of i).airline ∧
      nonemptyOpt (build_payload_of i).cost_center ∧
      nonemptyOpt (build_payload_of i).status ∧
      nonemptyOpt (build_payload_of i).supplier ∧
      (∃ n : ℤ, (build_payload_of i).service_cost = (n : ℚ) / 100) ∧
      (∃ n : ℤ, (build_payload_of i).fee = (n : ℚ) / 100) ∧
      pyRound2 (pyOrZero none) = 0 :=
  ⟨rfl, rfl,
   normOpt_pyStripOrNone i.origin, normOpt_pyStripOrNone i.destination,
   normOpt_pyStripOrNone i.user_name, normOpt_pyStripOrNone i.reason,
   normOpt_pyStripOrNone i.nf_number,
   nonemptyOpt_pyStrOrNone i.airline, nonemptyOpt_pyStrOrNone i.cost_center,
   nonemptyOpt_pyStrOrNone i.status, nonemptyOpt_pyStrOrNone i.supplier,
   ⟨roundHalfEven (pyOrZero i.service_cost * 100), rfl⟩,
   ⟨roundHalfEven (pyOrZero i.fee * 100), rfl⟩,
   by norm_num [pyOrZero, pyRound2, roundHalfEven]⟩

/-- The payload of the spec's rounding example: control "ABC123",
service_cost 100.005, fee 50.00. -/
def payload_c5 : Payload :=
  build_payload "PASSAGEM AEREA".toList "ABC123".toList 20240301 "ANA".toList
    [] none 3 [] [] [] [] [] (some (20001/200)) (some 50) [] [] none []

/-- C5 counterexample: inserting the example record does not store
service_cost 100.01 nor total_cost 150.01.  Python's `round` rounds half
to even (and the IEEE-754 double closest to 100.005 lies strictly below
the tie), so 100.005 rounds down to 100.00, not up to 100.01. -/
theorem insert_round_half_counterexample :
    (insert_record init_db 0 payload_c5).rows.map Row.service_cost ≠
        [some (10001/100)] ∧
      (insert_record init_db 0 payload_c5).rows.map Row.total_cost ≠
        [(15001/100 : ℚ)] := by
  have hsc : pyRound2 (pyOrZero (some (20001/200 : ℚ))) = 100 := by
    norm_num [pyOrZero, pyRound2, roundHalfEven, Int.even_iff]
  have hfee : pyRound2 (pyOrZero (some (50 : ℚ))) = 50 := by
    norm_num [pyOrZero, pyRound2, roundHalfEven]
  constructor
  · simp only [insert_record, init_db, rowOfPayload, payload_c5, build_payload,
      List.map_nil, List.nil_append, List.map_cons, hsc]
    intro h
    have := List.head_eq_of_cons_eq h
    norm_num at this
  · simp only [insert_record, init_db, rowOfPayload, payload_c5, build_payload,
      genTotal, List.map_nil, List.nil_append, List.map_cons, hsc, hfee]
    intro h
    have := List.head_eq_of_cons_eq h
    norm_num [Option.getD] at this

/-- C5 amended: inserting the example record stores service_cost 100.00 and
total_cost 150.00. -/
theorem insert_round_half_amended :
    (insert_record init_db 0 payload_c5).rows.map Row.service_cost = [some 100] ∧
      (insert_record init_db 0 payload_c5).rows.map Row.total_cost = [(150 : ℚ)] := by
  have hsc : pyRound2 (pyOrZero (some (20001/200 : ℚ))) = 100 := by
    norm_num [pyOrZero, pyRound2, roundHalfEven, Int.even_iff]
  have hfee : pyRound2 (pyOrZero (some (50 : ℚ))) = 50 := by
    norm_num [pyOrZero, pyRound2, roundHalfEven]
  constructor
  · simp [insert_record, init_db, rowOfPayload, payload_c5, build_payload, hsc]
  · simp [insert_record, init_db, rowOfPayload, payload_c5, build_payload,
      genTotal, hsc, hfee]
    norm_num

/-- Form input with a whitespace-only airline selection. -/
def inputs_c10 : FormInputs :=
  { service_type := "TRANSPORTE".toList
    control := "X".toList
    issue_date := 20240301
    issuer := "ANA".toList
    airline := [' ']
    departure_date := none
    month_number := 3
    origin := []
    destination := []
    user_name := []
    reason := []
    cost_center := []
    service_cost := some 100
    fee := some 50
    status := []
    supplier := []
    nf_issue_date := none
    nf_number := [] }

/-- C10 counterexample: the selection fields go through `x or None` without
trimming, so a whitespace-only airline value survives with its leading
whitespace, violating the claimed trimmed form. -/
theorem selection_field_untrimmed :
    (build_payload_of inputs_c10).airline = some [' '] ∧
      ¬ normOpt (build_payload_of inputs_c10).airline := by
  decide

/-- C10 amended: in every normalized payload the optional free-text fields
(origin, destination, user name, reason, NF number) are null or non-empty
with no leading or trailing whitespace; the optional selection fields
(airline, cost center, status, supplier) are null or non-empty but are
not trimmed by the normalization. -/
theorem optional_fields_null_or_nonempty (i : FormInputs) :
    normOpt (build_payload_of i).origin ∧
      normOpt (build_payload_of i).destination ∧
      normOpt (build_payload_of i).user_name ∧
      normOpt (build_payload_of i).reason ∧
      normOpt (build_payload_of i).nf_number ∧
      nonemptyOpt (build_payload_of i).airline ∧
      nonemptyOpt (build_payload_of i).cost_center ∧
      nonemptyOpt (build_payload_of i).status ∧
      nonemptyOpt (build_payload_of i).supplier :=
  ⟨normOpt_pyStripOrNone i.origin, normOpt_pyStripOrNone i.destination,
   normOpt_pyStripOrNone i.user_name, normOpt_pyStripOrNone i.reason,
   normOpt_pyStripOrNone i.nf_number,
   nonemptyOpt_pyStrOrNone i.airline, nonemptyOpt_pyStrOrNone i.cost_center,
   nonemptyOpt_pyStrOrNone i.status, nonemptyOpt_pyStrOrNone i.supplier⟩
